import Mathlib

/-!
Verification of the campaign-workflow templating and dispatch logic of the
Fetch-Marketing-Bot repository, as a shallow embedding in Lean 4.

Conventions used throughout this development:
* Python dictionaries with a fixed key set are embedded as Lean structures
  with the same field names.
* Python `datetime` values are embedded as integer day counts (`Int`); every
  offset the source applies (`timedelta(days = k)`) is whole days, so the
  embedding is exact for the date arithmetic the code performs.
* Python's implementation-defined `hash` is embedded as an explicit function
  parameter `pyHash : String → Int`; Python's `%` on a positive modulus is
  `Int.emod`.
* Async functions whose awaited calls are mocked in the source are embedded
  as pure functions; spawned (never-awaited) background tasks are embedded
  as an explicit `spawned` component of the result.
-/

/-- One entry of a workflow template, after `get_event_planning_workflow_template`
and `get_email_campaign_workflow_template` in `handlers/core_clean_actions.py`:
each template entry is a dict with these exact keys. -/
structure TaskSpec where
  name : String
  description : String
  assignee : String
  estimated_duration : String
  dependencies : List String
  calendar_reminder : Bool
deriving Repr, DecidableEq

/-- Embeds `get_event_planning_workflow_template` from `handlers/core_clean_actions.py`:
the fixed event-planning template (Kate/Karen's domain). -/
def get_event_planning_workflow_template : List TaskSpec :=
  [ { name := "Vendor Coordination & Calls",
      description := "Contact and coordinate with event vendors",
      assignee := "Kate or Karen",
      estimated_duration := "2-3 hours",
      dependencies := [],
      calendar_reminder := true },
    { name := "Creative Team Collaboration for Visual Experience",
      description := "Work with creative team on event visual design and branding",
      assignee := "Kate or Karen",
      estimated_duration := "3-4 hours",
      dependencies := ["Vendor Coordination & Calls"],
      calendar_reminder := true },
    { name := "Physical Event Logistics Planning",
      description := "Plan event setup, layout, equipment, and operational details",
      assignee := "Kate or Karen",
      estimated_duration := "4-5 hours",
      dependencies := ["Creative Team Collaboration for Visual Experience"],
      calendar_reminder := true },
    { name := "Event Setup and Operations",
      description := "On-site event setup and day-of operations management",
      assignee := "Kate or Karen",
      estimated_duration := "6-8 hours",
      dependencies := ["Physical Event Logistics Planning"],
      calendar_reminder := true },
    { name := "Post-Event Wrap-up and Vendor Coordination",
      description := "Event breakdown, vendor settlements, and post-event coordination",
      assignee := "Kate or Karen",
      estimated_duration := "2-3 hours",
      dependencies := ["Event Setup and Operations"],
      calendar_reminder := true } ]

/-- Embeds `get_email_campaign_workflow_template` from `handlers/core_clean_actions.py`:
the fixed 6-subtask email template (Jheryl's domain). -/
def get_email_campaign_workflow_template : List TaskSpec :=
  [ { name := "Email Template Build",
      description := "Create and design email invitation template",
      assignee := "Jheryl",
      estimated_duration := "2-3 hours",
      dependencies := [],
      calendar_reminder := false },
    { name := "Email Content Creation & Copy",
      description := "Write email content, subject lines, and call-to-action copy",
      assignee := "Jheryl",
      estimated_duration := "1-2 hours",
      dependencies := ["Email Template Build"],
      calendar_reminder := false },
    { name := "Email Invitation Scheduling",
      description := "Schedule email invitations and set up delivery timing",
      assignee := "Jheryl",
      estimated_duration := "1 hour",
      dependencies := ["Email Content Creation & Copy"],
      calendar_reminder := false },
    { name := "Attendee Communication Setup",
      description := "Set up automated attendee communication workflows",
      assignee := "Jheryl",
      estimated_duration := "1-2 hours",
      dependencies := ["Email Invitation Scheduling"],
      calendar_reminder := false },
    { name := "RSVP Management System",
      description := "Configure RSVP tracking and management system",
      assignee := "Jheryl",
      estimated_duration := "1-2 hours",
      dependencies := ["Attendee Communication Setup"],
      calendar_reminder := false },
    { name := "Email Campaign QA & Send",
      description := "Quality assurance testing and final email campaign send",
      assignee := "Jheryl",
      estimated_duration := "1 hour",
      dependencies := ["RSVP Management System"],
      calendar_reminder := false } ]

/-- A parent record of the workflow-template path: one of the parent dicts
built in `create_dual_parent_ticket_workflow` / `create_email_only_workflow`
(`handlers/core_clean_actions.py`). -/
structure ParentRecord where
  name : String
  assignees : List String
  tasks : List TaskSpec
  total_tasks : Nat
deriving Repr, DecidableEq

/-- Result dict of `create_dual_parent_ticket_workflow`
(`handlers/core_clean_actions.py`). -/
structure DualParentResult where
  event_planning_parent : ParentRecord
  email_campaign_parent : ParentRecord
  event_planning_tasks : Nat
  email_campaign_tasks : Nat
  total_parents : Nat
deriving Repr, DecidableEq

/-- Result dict of `create_email_only_workflow`
(`handlers/core_clean_actions.py`). -/
structure EmailOnlyResult where
  email_campaign_parent : ParentRecord
  total_tasks : Nat
  total_parents : Nat
deriving Repr, DecidableEq

/-- Embeds `create_dual_parent_ticket_workflow` from `handlers/core_clean_actions.py`
(the mocked awaited calls are pure; the function only assembles the result dict). -/
def create_dual_parent_ticket_workflow (name _goal _target _user_id : String) :
    DualParentResult :=
  let event_planning_tasks := get_event_planning_workflow_template
  let email_campaign_tasks := get_email_campaign_workflow_template
  { event_planning_parent :=
      { name := "Event Planning: " ++ name,
        assignees := ["Kate", "Karen"],
        tasks := event_planning_tasks,
        total_tasks := event_planning_tasks.length },
    email_campaign_parent :=
      { name := "Email Campaign: " ++ name,
        assignees := ["Jheryl"],
        tasks := email_campaign_tasks,
        total_tasks := email_campaign_tasks.length },
    event_planning_tasks := event_planning_tasks.length,
    email_campaign_tasks := email_campaign_tasks.length,
    total_parents := 2 }

/-- Embeds `create_email_only_workflow` from `handlers/core_clean_actions.py`. -/
def create_email_only_workflow (name _goal _target _user_id : String) :
    EmailOnlyResult :=
  let email_tasks := get_email_campaign_workflow_template
  { email_campaign_parent :=
      { name := "Email Campaign: " ++ name,
        assignees := ["Jheryl"],
        tasks := email_tasks,
        total_tasks := email_tasks.length },
    total_tasks := email_tasks.length,
    total_parents := 1 }

/-- The two possible result shapes of `process_campaign_with_workflow_templates`. -/
inductive CampaignWorkflowResult where
  | dual (r : DualParentResult)
  | single (r : EmailOnlyResult)
deriving Repr, DecidableEq

/-- The parent records contained in a `CampaignWorkflowResult` (two for the
dual shape, one for the single shape), in the order they appear in the dict. -/
def CampaignWorkflowResult.parents : CampaignWorkflowResult → List ParentRecord
  | .dual r => [r.event_planning_parent, r.email_campaign_parent]
  | .single r => [r.email_campaign_parent]

/-- The `total_parents` field of the underlying result dict. -/
def CampaignWorkflowResult.total_parents : CampaignWorkflowResult → Nat
  | .dual r => r.total_parents
  | .single r => r.total_parents

/-- Embeds `process_campaign_with_workflow_templates` from
`handlers/core_clean_actions.py`: dual parent tickets iff the campaign type is
exactly `"physical_event"`, the email-only workflow for every other string. -/
def process_campaign_with_workflow_templates
    (name goal target campaign_type user_id : String) : CampaignWorkflowResult :=
  if campaign_type = "physical_event" then
    .dual (create_dual_parent_ticket_workflow name goal target user_id)
  else
    .single (create_email_only_workflow name goal target user_id)

namespace MondayService

/-- A mock Monday.com parent ticket dict, as built by
`MondayService.create_physical_event_campaign` / `create_email_only_campaign`
(`services/monday_service.py`); its `tasks` are plain strings. -/
structure MondayTicket where
  id : String
  name : String
  assignees : List String
  tasks : List String
deriving Repr, DecidableEq

/-- Result dict of `MondayService.create_physical_event_campaign`. -/
structure PhysicalEventCampaignResult where
  status : String
  campaign_type : String
  event_ticket : MondayTicket
  email_ticket : MondayTicket
  event_board_url : String
  email_board_url : String
deriving Repr, DecidableEq

/-- Result dict of `MondayService.create_email_only_campaign`. -/
structure EmailOnlyCampaignResult where
  status : String
  campaign_type : String
  email_ticket : MondayTicket
  board_url : String
deriving Repr, DecidableEq

/-- Embeds `MondayService.create_physical_event_campaign` from
`services/monday_service.py`; `pyHash` stands for Python's builtin `hash`. -/
def create_physical_event_campaign (pyHash : String → Int)
    (name _goal _target : String) : PhysicalEventCampaignResult :=
  { status := "created",
    campaign_type := "physical_event",
    event_ticket :=
      { id := "event_" ++ toString ((pyHash name).emod 10000),
        name := "Event Planning: " ++ name,
        assignees := ["kate@fetchrewards.com", "karen@fetchrewards.com"],
        tasks :=
          ["Venue booking and logistics", "Event timeline and agenda",
           "Speaker/presenter coordination", "Materials and setup planning",
           "Registration process", "On-site execution", "Post-event follow-up"] },
    email_ticket :=
      { id := "email_" ++ toString ((pyHash name).emod 10000),
        name := "Email Campaign: " ++ name,
        assignees := ["jheryl@fetchrewards.com"],
        tasks :=
          ["Email strategy", "Content creation", "Audience segmentation",
           "Send automation", "Performance tracking"] },
    event_board_url := "https://fetchrewards.monday.com/boards/123456",
    email_board_url := "https://fetchrewards.monday.com/boards/789012" }

/-- Embeds `MondayService.create_email_only_campaign` from `services/monday_service.py`. -/
def create_email_only_campaign (pyHash : String → Int)
    (name _goal _target : String) : EmailOnlyCampaignResult :=
  { status := "created",
    campaign_type := "email_only",
    email_ticket :=
      { id := "email_only_" ++ toString ((pyHash name).emod 10000),
        name := "Email Campaign: " ++ name,
        assignees := ["jheryl@fetchrewards.com"],
        tasks :=
          ["Campaign strategy", "Audience segmentation", "Content creation",
           "A/B testing", "Send automation", "Performance analysis"] },
    board_url := "https://fetchrewards.monday.com/boards/789012" }

end MondayService

/-- The two result shapes of `handle_campaign_submission`
(`handlers/campaign_submission.py`). -/
inductive SubmissionResult where
  | physical (r : MondayService.PhysicalEventCampaignResult)
  | emailOnly (r : MondayService.EmailOnlyCampaignResult)
deriving Repr, DecidableEq

/-- The parent tickets created for one submission, in creation order. -/
def SubmissionResult.parentTickets : SubmissionResult → List MondayService.MondayTicket
  | .physical r => [r.event_ticket, r.email_ticket]
  | .emailOnly r => [r.email_ticket]

/-- The Monday-service dispatch performed by `handle_campaign_submission`
(`handlers/campaign_submission.py`): `create_physical_event_campaign` iff the
selected campaign type is exactly `"physical_event"`, else
`create_email_only_campaign`. -/
def handle_campaign_submission_dispatch (pyHash : String → Int)
    (name goal target campaign_type : String) : SubmissionResult :=
  if campaign_type = "physical_event" then
    .physical (MondayService.create_physical_event_campaign pyHash name goal target)
  else
    .emailOnly (MondayService.create_email_only_campaign pyHash name goal target)

/-- C1: for every campaign submission, the physical-event tag produces exactly
two parent records (event-planning then email-campaign) and every other
campaign-type string produces exactly one (the email-campaign parent), on both
dispatch paths (`process_campaign_with_workflow_templates` and the
`handle_campaign_submission` Monday-service path). -/
theorem c1_dispatch_parent_records (pyHash : String → Int)
    (name goal target campaign_type user_id : String) :
    ((process_campaign_with_workflow_templates name goal target campaign_type
        user_id).parents.map ParentRecord.name =
      if campaign_type = "physical_event" then
        ["Event Planning: " ++ name, "Email Campaign: " ++ name]
      else ["Email Campaign: " ++ name])
    ∧ ((process_campaign_with_workflow_templates name goal target campaign_type
        user_id).total_parents =
      if campaign_type = "physical_event" then 2 else 1)
    ∧ ((handle_campaign_submission_dispatch pyHash name goal target
        campaign_type).parentTickets.map MondayService.MondayTicket.name =
      if campaign_type = "physical_event" then
        ["Event Planning: " ++ name, "Email Campaign: " ++ name]
      else ["Email Campaign: " ++ name]) := by
  unfold process_campaign_with_workflow_templates handle_campaign_submission_dispatch
  by_cases h : campaign_type = "physical_event" <;>
    simp [h, CampaignWorkflowResult.parents, CampaignWorkflowResult.total_parents,
      SubmissionResult.parentTickets, create_dual_parent_ticket_workflow,
      create_email_only_workflow, MondayService.create_physical_event_campaign,
      MondayService.create_email_only_campaign]

/-- C2 counterexample: on the Monday-service path (cited by the claim), the
email task list attached as the second parent of a physical-event campaign is
NOT identical to the task list of a standalone email-only campaign (5 entries
vs 6 entries with different texts), refuting the claim as stated at the
concrete input `name = "Block Party"`. -/
theorem c2_counterexample :
    (MondayService.create_physical_event_campaign (fun _ => 0)
        "Block Party" "awareness" "locals").email_ticket.tasks ≠
      (MondayService.create_email_only_campaign (fun _ => 0)
        "Block Party" "awareness" "locals").email_ticket.tasks := by
  decide

/-- C2 amended: the fixed event-planning template has exactly 5 entries, and on
the workflow-template dispatch path the email template attached as the second
parent of a physical-event campaign is identical (same entries, same order) to
the template used for a standalone email-only campaign; on the Monday-service
mock-ticket path the two email task lists differ instead. -/
theorem c2_template_identity (pyHash : String → Int)
    (name goal target user_id : String) :
    get_event_planning_workflow_template.length = 5
    ∧ (create_dual_parent_ticket_workflow name goal target
        user_id).email_campaign_parent.tasks =
      (create_email_only_workflow name goal target
        user_id).email_campaign_parent.tasks
    ∧ (MondayService.create_physical_event_campaign pyHash name goal
        target).email_ticket.tasks ≠
      (MondayService.create_email_only_campaign pyHash name goal
        target).email_ticket.tasks := by
  refine ⟨by decide, rfl, ?_⟩
  intro h
  have hlen := congrArg List.length h
  simp [MondayService.create_physical_event_campaign,
    MondayService.create_email_only_campaign] at hlen

/-- C3: the email-only task template contains exactly 6 entries in a fixed
order (witnessed by the exact name sequence), every entry carries the
non-empty assignee label `"Jheryl"`, and on the Monday-service path the
email-only ticket likewise carries 6 task entries and the non-empty assignee
list `["jheryl@fetchrewards.com"]`. -/
theorem c3_email_template_shape (pyHash : String → Int) (name goal target : String) :
    get_email_campaign_workflow_template.length = 6
    ∧ get_email_campaign_workflow_template.map TaskSpec.name =
      ["Email Template Build", "Email Content Creation & Copy",
       "Email Invitation Scheduling", "Attendee Communication Setup",
       "RSVP Management System", "Email Campaign QA & Send"]
    ∧ get_email_campaign_workflow_template.all
        (fun t => !(t.assignee == "")) = true
    ∧ get_email_campaign_workflow_template.all
        (fun t => t.assignee == "Jheryl") = true
    ∧ (MondayService.create_email_only_campaign pyHash name goal
        target).email_ticket.tasks.length = 6
    ∧ (MondayService.create_email_only_campaign pyHash name goal
        target).email_ticket.assignees = ["jheryl@fetchrewards.com"] := by
  exact ⟨by decide, by decide, by decide, by decide, rfl, rfl⟩

/-- Helper for `split_lines`: splits a character list at every newline,
mirroring Python's `str.split('\n')` (which returns `[""]` on the empty
string and keeps empty segments). -/
def splitOnNewlineAux : List Char → List (List Char)
  | [] => [[]]
  | c :: rest =>
      match splitOnNewlineAux rest, decide (c = '\n') with
      | r, true => [] :: r
      | [], false => [[c]]
      | h :: t, false => (c :: h) :: t

/-- Python's `s.split('\n')`, as used on the free-text deliverables in
`MondayService._create_campaign_subtasks`. -/
def split_lines (s : String) : List String :=
  (splitOnNewlineAux s.data).map (fun cs => String.mk cs)

/-- Python's `str.strip()` (drop leading and trailing whitespace). -/
def py_strip (s : String) : String :=
  String.mk (((s.data.dropWhile Char.isWhitespace).reverse.dropWhile
    Char.isWhitespace).reverse)

namespace MondayService

/-- One entry of the `standard_subtasks` working list inside
`MondayService._create_campaign_subtasks` (`services/monday_service.py`),
before ids and fixed fields are stamped on; `due_date` is an integer day
count. -/
structure SubtaskData where
  name : String
  assignee : String
  due_date : Int
  estimated_duration : String
  dependencies : List String
deriving Repr, DecidableEq

/-- A generated subtask dict, as assembled by the final loop of
`MondayService._create_campaign_subtasks`; the source key `"type"` is the
field `task_type` (`type` is reserved in Lean). -/
structure Subtask where
  task_id : String
  parent_id : String
  name : String
  assignee : String
  due_date : Int
  estimated_duration : String
  dependencies : List String
  status : String
  task_type : String
  calendar_reminder : Bool
deriving Repr, DecidableEq

/-- One iteration of the `for i, subtask_data in enumerate(standard_subtasks)`
loop of `MondayService._create_campaign_subtasks`. -/
def mk_subtask (pyHash : String → Int) (parent_task_id : String) (i : Nat)
    (d : SubtaskData) : Subtask :=
  { task_id := "subtask_" ++ toString ((pyHash (parent_task_id ++ toString i)).emod 100000),
    parent_id := parent_task_id,
    name := d.name,
    assignee := d.assignee,
    due_date := d.due_date,
    estimated_duration := d.estimated_duration,
    dependencies := d.dependencies,
    status := "Not Started",
    task_type := "subtask",
    calendar_reminder := true }

/-- The whole `enumerate` loop of `MondayService._create_campaign_subtasks`,
with `i` the running index. -/
def materialize_subtasks (pyHash : String → Int) (parent_task_id : String) :
    Nat → List SubtaskData → List Subtask
  | _, [] => []
  | i, d :: rest =>
      mk_subtask pyHash parent_task_id i d ::
        materialize_subtasks pyHash parent_task_id (i + 1) rest

/-- The ad hoc subtask data appended per non-empty deliverable line in
`MondayService._create_campaign_subtasks`. -/
def adhoc_subtask_data (event_date : Int) (item : String) : SubtaskData :=
  { name := "Custom: " ++ item,
    assignee := "To Be Assigned",
    due_date := event_date - 7,
    estimated_duration := "TBD",
    dependencies := ["EDEN Review"] }

/-- Embeds `MondayService._create_campaign_subtasks` from `services/monday_service.py`.
`now` is the current time in integer days (`datetime.now()`); the source's
"date parsing" sets `event_date = now + 30 days` in the `if`, `else` and
`except` branches alike (the supplied `event_dates` string is only tested for
truthiness, never parsed). -/
def create_campaign_subtasks (pyHash : String → Int)
    (parent_task_id deliverables event_dates : String) (now : Int) : List Subtask :=
  let event_date : Int := if event_dates ≠ "" then now + 30 else now + 30
  let standard_subtasks : List SubtaskData :=
    [ { name := "Deliverable Design",
        assignee := "Kelly Redding",
        due_date := event_date - 14,
        estimated_duration := "2-3 business days",
        dependencies := [] },
      { name := "Creative Review",
        assignee := "Kelly Redding",
        due_date := event_date - 12,
        estimated_duration := "1-2 business days",
        dependencies := ["Deliverable Design"] },
      { name := "EDEN Review",
        assignee := "Karen or Kate",
        due_date := event_date - 10,
        estimated_duration := "1-2 business days",
        dependencies := ["Creative Review"] } ]
  let all_subtasks : List SubtaskData :=
    if deliverables ≠ "" ∧ py_strip deliverables ≠ "" then
      standard_subtasks ++
        ((((split_lines deliverables).map py_strip).filter
            (fun s => s ≠ "")).map (adhoc_subtask_data event_date))
    else standard_subtasks
  materialize_subtasks pyHash parent_task_id 0 all_subtasks

theorem materialize_subtasks_length (pyHash : String → Int) (pid : String) :
    ∀ (i : Nat) (l : List SubtaskData),
      (materialize_subtasks pyHash pid i l).length = l.length := by
  intro i l
  induction l generalizing i with
  | nil => rfl
  | cons d rest ih => simp [materialize_subtasks, ih]

theorem materialize_subtasks_map_due (pyHash : String → Int) (pid : String) :
    ∀ (i : Nat) (l : List SubtaskData),
      (materialize_subtasks pyHash pid i l).map Subtask.due_date =
        l.map SubtaskData.due_date := by
  intro i l
  induction l generalizing i with
  | nil => rfl
  | cons d rest ih => simp [materialize_subtasks, mk_subtask, ih]

theorem materialize_subtasks_map_name (pyHash : String → Int) (pid : String) :
    ∀ (i : Nat) (l : List SubtaskData),
      (materialize_subtasks pyHash pid i l).map Subtask.name =
        l.map SubtaskData.name := by
  intro i l
  induction l generalizing i with
  | nil => rfl
  | cons d rest ih => simp [materialize_subtasks, mk_subtask, ih]

theorem materialize_adhoc_all (pyHash : String → Int) (pid : String) (D : Int) :
    ∀ (i : Nat) (items : List String),
      (materialize_subtasks pyHash pid i
          (items.map (adhoc_subtask_data D))).all
        (fun s => s.due_date == D - 7 && s.dependencies == ["EDEN Review"]) = true := by
  intro i items
  induction items generalizing i with
  | nil => rfl
  | cons item rest ih =>
      simp only [List.map_cons, materialize_subtasks, List.all_cons, ih,
        mk_subtask, adhoc_subtask_data, Bool.and_true]
      simp

end MondayService

/-- C4: for every unified-workflow invocation, with reference date
`D = now + 30` (days), the three standard subtasks are Deliverable Design,
Creative Review and EDEN Review (the approval review) with due dates
`D - 14`, `D - 12`, `D - 10` respectively, and every deliverable-derived
subtask has due date `D - 7` and depends on the approval-review task
`"EDEN Review"`. -/
theorem c4_unified_workflow_due_dates (pyHash : String → Int)
    (parent_task_id deliverables event_dates : String) (now : Int) :
    ((MondayService.create_campaign_subtasks pyHash parent_task_id deliverables
        event_dates now).take 3).map (fun s => (s.name, s.due_date)) =
      [("Deliverable Design", now + 30 - 14),
       ("Creative Review", now + 30 - 12),
       ("EDEN Review", now + 30 - 10)]
    ∧ ((MondayService.create_campaign_subtasks pyHash parent_task_id deliverables
        event_dates now).drop 3).all
        (fun s => s.due_date == now + 30 - 7 &&
          s.dependencies == ["EDEN Review"]) = true := by
  unfold MondayService.create_campaign_subtasks
  simp only [ite_self]
  by_cases hg : deliverables ≠ "" ∧ py_strip deliverables ≠ ""
  · simp only [if_pos hg, MondayService.materialize_subtasks,
      MondayService.mk_subtask, List.cons_append, List.nil_append]
    exact ⟨rfl, by
      simpa using MondayService.materialize_adhoc_all pyHash parent_task_id
        (now + 30) 3 _⟩
  · simp only [if_neg hg, MondayService.materialize_subtasks,
      MondayService.mk_subtask]
    exact ⟨rfl, rfl⟩

/-- C5 counterexample: for the deliverables text `"Banner ad\nLanding page"`
the unified workflow produces 5 subtasks under the parent (3 standard + 2 ad
hoc), not the 4 the claim states. -/
theorem c5_counterexample :
    ¬ ((MondayService.create_campaign_subtasks (fun _ => 0) "task_1"
        "Banner ad\nLanding page" "" 0).length = 4) := by
  have h : (MondayService.create_campaign_subtasks (fun _ => 0) "task_1"
      "Banner ad\nLanding page" "" 0).length = 5 := by
    unfold MondayService.create_campaign_subtasks
    rw [MondayService.materialize_subtasks_length]
    rw [if_pos (by decide)]
    have hitems : (((split_lines "Banner ad\nLanding page").map py_strip).filter
        (fun s => s ≠ "")) = ["Banner ad", "Landing page"] := by decide
    rw [hitems]
    rfl
  omega

/-- C5 amended: for a unified-workflow submission whose free-text deliverables
are the two lines `"Banner ad"` and `"Landing page"`, exactly 2 ad hoc
subtasks (one per non-empty line) are appended beyond the 3 standard
subtasks, for a total of 5 subtasks under the parent. -/
theorem c5_adhoc_subtask_count (pyHash : String → Int)
    (parent_task_id event_dates : String) (now : Int) :
    (MondayService.create_campaign_subtasks pyHash parent_task_id
        "Banner ad\nLanding page" event_dates now).length = 5
    ∧ ((MondayService.create_campaign_subtasks pyHash parent_task_id
        "Banner ad\nLanding page" event_dates now).drop 3).map
        MondayService.Subtask.name =
      ["Custom: Banner ad", "Custom: Landing page"]
    ∧ ((MondayService.create_campaign_subtasks pyHash parent_task_id
        "Banner ad\nLanding page" event_dates now).take 3).map
        MondayService.Subtask.name =
      ["Deliverable Design", "Creative Review", "EDEN Review"] := by
  unfold MondayService.create_campaign_subtasks
  simp only [ite_self]
  rw [if_pos (by decide)]
  have hitems : (((split_lines "Banner ad\nLanding page").map py_strip).filter
      (fun s => s ≠ "")) = ["Banner ad", "Landing page"] := by decide
  rw [hitems]
  refine ⟨?_, ?_, ?_⟩ <;>
    simp [MondayService.materialize_subtasks, MondayService.mk_subtask,
      MondayService.adhoc_subtask_data]

/-- C10: the unified-workflow subtask builder ignores the supplied
`event_dates` string entirely: two calls differing only in `event_dates`
(current time held fixed) yield identical subtask lists, and the reference
date is always `now + 30` days — for empty deliverables the due dates are
exactly `now + 30 - 14`, `now + 30 - 12`, `now + 30 - 10`. -/
theorem c10_event_dates_never_influence_subtasks (pyHash : String → Int)
    (parent_task_id deliverables event_dates₁ event_dates₂ : String) (now : Int) :
    MondayService.create_campaign_subtasks pyHash parent_task_id deliverables
        event_dates₁ now =
      MondayService.create_campaign_subtasks pyHash parent_task_id deliverables
        event_dates₂ now
    ∧ (MondayService.create_campaign_subtasks pyHash parent_task_id ""
        event_dates₁ now).map MondayService.Subtask.due_date =
      [now + 30 - 14, now + 30 - 12, now + 30 - 10] := by
  constructor
  · unfold MondayService.create_campaign_subtasks
    simp only [ite_self]
  · unfold MondayService.create_campaign_subtasks
    simp only [ite_self]
    rw [if_neg (by decide)]
    simp [MondayService.materialize_subtasks, MondayService.mk_subtask]

/-- Python list repetition `l * n`. -/
def listRepeat (l : List α) (n : Nat) : List α := (List.replicate n l).flatten

namespace AIService

/-- The `fallbacks` dict lookup with default `fallbacks["email"]` from
`AIService._get_fallback_suggestions` (`services/ai_service.py`):
`fallbacks.get(campaign_type, fallbacks["email"])`. -/
def fallback_base (campaign_type : String) : List String :=
  if campaign_type = "email" then
    ["Weekly Bonus Points Roundup",
     "Exclusive Partner Store Spotlight",
     "Receipt Scanning Tips & Tricks",
     "Member Milestone Celebration",
     "Limited-Time Double Points Offer"]
  else if campaign_type = "social" then
    ["#ScanToWin Challenge",
     "Receipt Art Contest",
     "Fetch Friends Referral Drive",
     "Store Partnership Announcements",
     "User Success Story Features"]
  else if campaign_type = "content" then
    ["Smart Shopping Guide Blog Series",
     "Receipt Scanning Best Practices",
     "Partner Store Deep Dives",
     "Cashback Optimization Tips",
     "Mobile App Feature Tutorials"]
  else if campaign_type = "event" then
    ["Fetch Rewards User Meetup",
     "Partner Store Pop-up Events",
     "Mobile Scanning Workshops",
     "Cashback Celebration Days",
     "Referral Program Launch Events"]
  else
    ["Weekly Bonus Points Roundup",
     "Exclusive Partner Store Spotlight",
     "Receipt Scanning Tips & Tricks",
     "Member Milestone Celebration",
     "Limited-Time Double Points Offer"]

/-- Embeds `AIService._get_fallback_suggestions` from `services/ai_service.py`:
`(suggestions * ((count // len(suggestions)) + 1))[:count]`. -/
def get_fallback_suggestions (campaign_type : String) (count : Nat) : List String :=
  let suggestions := fallback_base campaign_type
  (listRepeat suggestions (count / suggestions.length + 1)).take count

/-- Embeds `AIService.generate_campaign_suggestions` from `services/ai_service.py`.
`configured` is `bool(self.client)`; `external` stands for the outcome of the
OpenAI call (`some lines` = the response content split into lines, `none` =
the call raised). -/
def generate_campaign_suggestions (configured : Bool)
    (external : Option (List String)) (campaign_type : String)
    (count : Nat) : List String :=
  if !configured then get_fallback_suggestions campaign_type count
  else
    match external with
    | some content_lines =>
        ((content_lines.map py_strip).filter (fun s => s ≠ "")).take count
    | none => get_fallback_suggestions campaign_type count

end AIService

/-- The `fallbacks` dict lookup with default `fallbacks["campaign"]` from the
module-level `get_fallback_suggestions` in `handlers/core_clean_actions.py`. -/
def handler_fallback_base (suggestion_type : String) : List String :=
  if suggestion_type = "event" then
    ["Fetch Field Day - Team-building with brand booths and challenges",
     "Rewards After Dark - Nighttime speakeasy with premium experiences",
     "Receipt Race - Street team event with brand-specific goals"]
  else if suggestion_type = "physical_event" then
    ["Fetch Field Day - Physical team-building with brand booths and challenges",
     "Rewards After Dark - Nighttime physical speakeasy with premium experiences",
     "Receipt Race - Physical street team event with brand-specific goals"]
  else if suggestion_type = "email_only" then
    ["Email Reward Challenge - Email-driven loyalty program",
     "Digital Milestone Celebration - Email campaign for user achievements",
     "Email Partner Spotlight - Partner anniversary email series"]
  else if suggestion_type = "slides" then
    ["Marketing Channel Overview - Visual breakdown of Fetch's amplification",
     "Pilot to Partnership: The First 90 Days - New partner onboarding",
     "Field & Experiential Deck - Past event activations with metrics"]
  else
    ["Brand Love Challenge - Gamified loyalty meets personalization",
     "My First 100,000 Points - User milestone journey sharing",
     "Brand Birthday Bash - Partner anniversaries with multipliers"]

/-- The module-level `get_fallback_suggestions` from
`handlers/core_clean_actions.py`: `(base * ((count // len(base)) + 1))[:count]`. -/
def get_fallback_suggestions (suggestion_type : String) (count : Nat) : List String :=
  let base := handler_fallback_base suggestion_type
  (listRepeat base (count / base.length + 1)).take count

/-- The spec's words for the fallback behavior: the fallback list "cycled to
fill the requested count" — entry `i` of the result is entry `i mod length`
of the fallback list. Stated as a second definition to compare against the
source-derived ones. -/
def cycle_fill_spec (l : List String) (count : Nat) : List String :=
  (List.range count).map (fun i => l.getD (i % l.length) "")

theorem length_listRepeat (l : List α) (n : Nat) :
    (listRepeat l n).length = n * l.length := by
  induction n with
  | zero => simp [listRepeat]
  | succ k ih =>
      have hrep : listRepeat l (k + 1) = l ++ listRepeat l k := by
        simp [listRepeat, List.replicate_succ]
      rw [hrep, List.length_append, ih]
      have h3 : (k + 1) * l.length = k * l.length + l.length := by ring
      omega

theorem getD_listRepeat (l : List α) (d : α) :
    ∀ (k i : Nat), i < k * l.length →
      (listRepeat l k).getD i d = l.getD (i % l.length) d := by
  intro k
  induction k with
  | zero => intro i hi; omega
  | succ k ih =>
      intro i hi
      have hrep : listRepeat l (k + 1) = l ++ listRepeat l k := by
        simp [listRepeat, List.replicate_succ]
      rw [hrep]
      by_cases hlt : i < l.length
      · rw [List.getD_append l (listRepeat l k) d i hlt, Nat.mod_eq_of_lt hlt]
      · have hle : l.length ≤ i := Nat.le_of_not_lt hlt
        rw [List.getD_append_right l (listRepeat l k) d i hle,
          Nat.mod_eq_sub_mod hle]
        apply ih
        have h3 : (k + 1) * l.length = k * l.length + l.length := by ring
        omega

theorem take_listRepeat_eq_cycle_fill (l : List String) (hl : l ≠ [])
    (n : Nat) :
    (listRepeat l (n / l.length + 1)).take n = cycle_fill_spec l n := by
  have hlen : 0 < l.length := List.length_pos.mpr hl
  have hub : n < (n / l.length + 1) * l.length := by
    have h1 := Nat.div_add_mod n l.length
    have h2 := Nat.mod_lt n hlen
    have h3 : (n / l.length + 1) * l.length = n / l.length * l.length + l.length :=
      Nat.succ_mul _ _
    have h4 : l.length * (n / l.length) = n / l.length * l.length :=
      Nat.mul_comm _ _
    omega
  apply List.ext_getElem
  · simp [cycle_fill_spec, length_listRepeat]
    omega
  · intro i h₁ h₂
    have hi : i < n := by
      have h := h₁
      simp [length_listRepeat] at h
      exact h.1
    have hi' : i < (listRepeat l (n / l.length + 1)).length := by
      rw [length_listRepeat]; omega
    rw [List.getElem_take]
    have h3 : (listRepeat l (n / l.length + 1))[i] =
        (listRepeat l (n / l.length + 1)).getD i "" :=
      (List.getD_eq_getElem _ "" hi').symm
    rw [h3, getD_listRepeat l "" _ i (by omega)]
    simp [cycle_fill_spec, hi]

theorem fallback_base_ne_nil (campaign_type : String) :
    AIService.fallback_base campaign_type ≠ [] := by
  unfold AIService.fallback_base
  repeat' split
  all_goals decide

theorem handler_fallback_base_ne_nil (suggestion_type : String) :
    handler_fallback_base suggestion_type ≠ [] := by
  unfold handler_fallback_base
  repeat' split
  all_goals decide

/-- C6: with the generative-text service unconfigured, suggestion generation
returns the fallback list of the requested tag cycled to exactly `count`
items (entry `i` of the result is entry `i mod length` of that tag's fixed
fallback list), on both the service path
(`AIService.generate_campaign_suggestions` /
`AIService._get_fallback_suggestions`) and the handler path
(`get_fallback_suggestions` in `core_clean_actions.py`); this holds for every
tag, recognized tags included. -/
theorem c6_fallback_suggestions_cycle (campaign_type suggestion_type : String)
    (count : Nat) (external : Option (List String)) :
    AIService.generate_campaign_suggestions false external campaign_type count =
      AIService.get_fallback_suggestions campaign_type count
    ∧ AIService.get_fallback_suggestions campaign_type count =
      cycle_fill_spec (AIService.fallback_base campaign_type) count
    ∧ (AIService.get_fallback_suggestions campaign_type count).length = count
    ∧ get_fallback_suggestions suggestion_type count =
      cycle_fill_spec (handler_fallback_base suggestion_type) count
    ∧ (get_fallback_suggestions suggestion_type count).length = count := by
  have h1 : AIService.get_fallback_suggestions campaign_type count =
      cycle_fill_spec (AIService.fallback_base campaign_type) count :=
    take_listRepeat_eq_cycle_fill _ (fallback_base_ne_nil campaign_type) count
  have h2 : get_fallback_suggestions suggestion_type count =
      cycle_fill_spec (handler_fallback_base suggestion_type) count :=
    take_listRepeat_eq_cycle_fill _ (handler_fallback_base_ne_nil suggestion_type) count
  refine ⟨rfl, h1, ?_, h2, ?_⟩
  · rw [h1]; simp [cycle_fill_spec]
  · rw [h2]; simp [cycle_fill_spec]

/-- The parts of a Slack event body that `handle_modal_navigation`
(`modals/core_modal_system.py`) inspects: `hasView` is `"view" in body`,
`viewId` is `body["view"]["id"]` when the key exists, and `triggerId` is
`body["trigger_id"]` when the key exists (`none` when absent). -/
structure SlackBody where
  hasView : Bool
  viewId : Option String
  triggerId : Option String
deriving Repr, DecidableEq

/-- Python's check `"trigger_id" in body and body["trigger_id"]`: the key
exists and its value is truthy (a non-empty string). -/
def SlackBody.truthyTrigger (body : SlackBody) : Bool :=
  match body.triggerId with
  | some s => s ≠ ""
  | none => false

/-- Python's check `"view" in body and "id" in body["view"]`. -/
def SlackBody.hasViewId (body : SlackBody) : Bool :=
  body.hasView && body.viewId.isSome

/-- Which client method `handle_modal_navigation` successfully invoked. -/
inductive NavCall where
  | viewsUpdate (view_id : String)
  | viewsPush (trigger_id : String)
  | viewsOpen (trigger_id : String)
deriving Repr, DecidableEq

/-- Whether each Slack client method call would succeed (the client is
external; the navigation logic only observes success or an exception). -/
structure ClientBehavior where
  updateOk : Bool
  pushOk : Bool
  openOk : Bool
deriving Repr, DecidableEq

/-- The exceptions `handle_modal_navigation` distinguishes: `ValueError`s it
raises itself (re-raised verbatim) versus any other exception (handled by the
last-resort fallback). -/
inductive NavExc where
  | valueError (msg : String)
  | otherExc (msg : String)
deriving Repr, DecidableEq

/-- Outcome of `handle_modal_navigation`: a successful client call, or an
exception escaping the handler. -/
inductive NavOutcome where
  | call (c : NavCall)
  | raised (msg : String)
deriving Repr, DecidableEq

/-- The body of the outer `try` of `handle_modal_navigation`
(`modals/core_modal_system.py`), given the resolved navigation type
(after auto-detection): returns the successful call or the escaping
exception. -/
def modal_navigation_main (cb : ClientBehavior) (body : SlackBody)
    (nt : String) : Except NavExc NavCall :=
  let v := body.viewId.getD ""
  let t := body.triggerId.getD ""
  if nt = "update" then
    if !body.hasViewId then
      if body.truthyTrigger then
        if cb.openOk then .ok (.viewsOpen t) else .error (.otherExc "views_open failed")
      else .error (.valueError "No trigger_id available for fallback")
    else
      if cb.updateOk then .ok (.viewsUpdate v)
      else
        if body.truthyTrigger then
          if cb.openOk then .ok (.viewsOpen t) else .error (.otherExc "views_open failed")
        else .error (.otherExc "views_update failed")
  else if nt = "push" then
    if !body.truthyTrigger then
      if body.hasViewId then
        if cb.updateOk then .ok (.viewsUpdate v) else .error (.otherExc "views_update failed")
      else .error (.valueError "No view ID available for fallback")
    else
      if cb.pushOk then .ok (.viewsPush t)
      else
        if body.hasViewId then
          if cb.updateOk then .ok (.viewsUpdate v) else .error (.otherExc "views_update failed")
        else .error (.otherExc "views_push failed")
  else if nt = "open" then
    if !body.truthyTrigger then
      if body.hasViewId then
        if cb.updateOk then .ok (.viewsUpdate v) else .error (.otherExc "views_update failed")
      else .error (.valueError "No trigger_id or view ID available")
    else
      if cb.openOk then .ok (.viewsOpen t) else .error (.otherExc "views_open failed")
  else .error (.valueError ("Invalid navigation_type: " ++ nt))

/-- Embeds `handle_modal_navigation` from `modals/core_modal_system.py`: resolves
`"auto"`, runs the main `try` body, re-raises `ValueError`s, and applies the
last-resort fallback (update, then open, then raise) to any other
exception. -/
def handle_modal_navigation (cb : ClientBehavior) (body : SlackBody)
    (navigation_type : String) : NavOutcome :=
  let nt :=
    if navigation_type = "auto" then
      if body.hasViewId then "update"
      else if body.truthyTrigger then "open"
      else if body.hasView then "update" else "open"
    else navigation_type
  match modal_navigation_main cb body nt with
  | .ok c => .call c
  | .error (.valueError msg) => .raised msg
  | .error (.otherExc msg) =>
      if body.hasViewId && cb.updateOk then
        .call (.viewsUpdate (body.viewId.getD ""))
      else if body.truthyTrigger && cb.openOk then
        .call (.viewsOpen (body.triggerId.getD ""))
      else .raised ("All modal navigation methods failed: " ++ msg)

/-- C7: for every event body that contains an existing view identifier but no
(truthy) trigger identifier, a `"push"` navigation request falls back to a
`views_update` call on that view identifier and does not raise, provided the
`views_update` client call itself succeeds. -/
theorem c7_push_without_trigger_updates (cb : ClientBehavior) (v : String)
    (trig : Option String)
    (htrig : SlackBody.truthyTrigger ⟨true, some v, trig⟩ = false)
    (hupd : cb.updateOk = true) :
    handle_modal_navigation cb ⟨true, some v, trig⟩ "push" =
      NavOutcome.call (NavCall.viewsUpdate v) := by
  unfold handle_modal_navigation modal_navigation_main
  simp [htrig, hupd, SlackBody.hasViewId]

/-- Witness for `c7_push_without_trigger_updates` at a concrete body and
client: a body with view id `"V123"` and no trigger, every client call
succeeding. -/
theorem c7_push_without_trigger_updates_witness :
    handle_modal_navigation ⟨true, true, true⟩ ⟨true, some "V123", none⟩ "push" =
      NavOutcome.call (NavCall.viewsUpdate "V123") :=
  c7_push_without_trigger_updates ⟨true, true, true⟩ "V123" none (by decide) rfl

/-- The module-level `SUGGESTION_CACHE` of `handlers/core_clean_actions.py`:
per-type suggestion lists plus the `"last_refresh"` timestamp (`none`
initially; timestamps in integer seconds). -/
structure SuggestionCache where
  entries : List (String × List String)
  last_refresh : Option Int
deriving Repr, DecidableEq

/-- A background task spawned with `asyncio.create_task` and never awaited:
`refresh_ai_cache` or `populate_cache_background`
(`handlers/core_clean_actions.py`). -/
inductive SpawnedTask where
  | refreshCache (suggestion_type : String) (count : Nat)
  | populateCache (suggestion_type : String) (count : Nat)
deriving Repr, DecidableEq

/-- What one call to `generate_ai_suggestions` produces: the returned
suggestions, the synchronously updated cache state, and the detached
background task it spawned, if any (the task itself is never awaited, so its
effect is not part of the call's result). -/
structure GenSuggestionsResult where
  suggestions : List String
  cache : SuggestionCache
  spawned : Option SpawnedTask
deriving Repr, DecidableEq

/-- Embeds `generate_ai_suggestions` from `handlers/core_clean_actions.py`. `now` is
`time.time()` in integer seconds; `cache_age` is
`SUGGESTION_CACHE.get("last_refresh", 0) or 0` (so a missing or `None`
timestamp reads as 0). -/
def generate_ai_suggestions (cache : SuggestionCache) (now : Int)
    (suggestion_type : String) (count : Nat) : GenSuggestionsResult :=
  match cache.entries.lookup suggestion_type with
  | some l =>
      if l ≠ [] then
        let cached_suggestions := l.take count
        let cache_age : Int := cache.last_refresh.getD 0
        if now - cache_age > 300 then
          { suggestions := cached_suggestions,
            cache := { cache with last_refresh := some now },
            spawned := some (.refreshCache suggestion_type count) }
        else
          { suggestions := cached_suggestions,
            cache := cache,
            spawned := none }
      else
        { suggestions := get_fallback_suggestions suggestion_type count,
          cache := cache,
          spawned := some (.populateCache suggestion_type count) }
  | none =>
      { suggestions := get_fallback_suggestions suggestion_type count,
        cache := cache,
        spawned := some (.populateCache suggestion_type count) }

/-- C8: `generate_ai_suggestions` spawns the detached `refresh_ai_cache` task
exactly when the requested type is cached non-empty and more than 300 seconds
have elapsed since the recorded last-refresh timestamp; when it does, it
updates that timestamp to the current time; and the call's own result never
depends on the spawned task: the cache entries are returned and left
unchanged as they were before the refresh. -/
theorem c8_cache_refresh_throttling (cache : SuggestionCache) (now : Int)
    (suggestion_type : String) (count : Nat) :
    ((generate_ai_suggestions cache now suggestion_type count).spawned =
        some (SpawnedTask.refreshCache suggestion_type count) ↔
      (((cache.entries.lookup suggestion_type).getD []).isEmpty = false ∧
        now - cache.last_refresh.getD 0 > 300))
    ∧ ((generate_ai_suggestions cache now suggestion_type count).spawned =
        some (SpawnedTask.refreshCache suggestion_type count) →
      (generate_ai_suggestions cache now suggestion_type count).cache.last_refresh =
        some now)
    ∧ (generate_ai_suggestions cache now suggestion_type count).cache.entries =
      cache.entries
    ∧ (∀ l, cache.entries.lookup suggestion_type = some l → l ≠ [] →
      (generate_ai_suggestions cache now suggestion_type count).suggestions =
        l.take count) := by
  unfold generate_ai_suggestions
  cases hl : cache.entries.lookup suggestion_type with
  | none => simp [hl]
  | some l =>
      by_cases hne : l ≠ []
      · obtain ⟨a, t, rfl⟩ := List.exists_cons_of_ne_nil hne
        by_cases hc : now - cache.last_refresh.getD 0 > 300
        · simp [hl, hc]
        · simp [hl, hc]
      · simp at hne
        subst hne
        simp [hl]

/-- Witness for `c8_cache_refresh_throttling`: a cache holding
`("campaign", ["A", "B"])` last refreshed at time 0, queried at time 1000 —
the refresh task is spawned, the timestamp becomes 1000, and the cached (not
refreshed) entries are returned. -/
theorem c8_cache_refresh_throttling_witness :
    (generate_ai_suggestions ⟨[("campaign", ["A", "B"])], some 0⟩ 1000
        "campaign" 1).spawned = some (SpawnedTask.refreshCache "campaign" 1)
    ∧ (generate_ai_suggestions ⟨[("campaign", ["A", "B"])], some 0⟩ 1000
        "campaign" 1).cache.last_refresh = some 1000
    ∧ (generate_ai_suggestions ⟨[("campaign", ["A", "B"])], some 0⟩ 1000
        "campaign" 1).suggestions = ["A"] := by
  have h := c8_cache_refresh_throttling ⟨[("campaign", ["A", "B"])], some 0⟩
    1000 "campaign" 1
  have hs := h.1.mpr ⟨by decide, by decide⟩
  refine ⟨hs, h.2.1 hs, ?_⟩
  simpa using h.2.2.2 ["A", "B"] (by decide) (by decide)

/-- Python's `needle in hay` check at one position: does `needle` start
here? -/
def charsStartWith : List Char → List Char → Bool
  | _, [] => true
  | [], _ :: _ => false
  | h :: hs, n :: ns => h == n && charsStartWith hs ns

/-- Python's substring test `needle in hay` over character lists. -/
def charsContain : List Char → List Char → Bool
  | [], needle => needle.isEmpty
  | hay@(_ :: rest), needle => charsStartWith hay needle || charsContain rest needle

/-- Python's `needle in hay` on strings. -/
def py_in (needle hay : String) : Bool := charsContain hay.data needle.data

/-- Python's `str.lower()`, restricted to ASCII letters (the benign error
codes the handler looks for are ASCII). -/
def py_lower (s : String) : String :=
  String.mk (s.data.map (fun c =>
    if 65 ≤ c.toNat ∧ c.toNat ≤ 90 then Char.ofNat (c.toNat + 32) else c))

/-- The benign Slack error codes `global_error_handler` suppresses
(`handlers/core_clean_actions.py`): expired interaction token, invalid auth,
modal push limit. -/
def benign_error_fragments : List String :=
  ["expired_trigger_id", "invalid_auth", "push_limit_reached"]

/-- What one invocation of `global_error_handler` does: the user id and line
it logs, and the message posted to the user (`none` when suppressed). -/
structure ErrorHandlerResult where
  logged_user_id : String
  logged_message : String
  message_sent : Option String
deriving Repr, DecidableEq

/-- The generic apology `global_error_handler` posts for non-benign errors. -/
def apology_message : String :=
  "🤖 Oops! Something went wrong. Please try again or contact support if the issue persists."

/-- Embeds `global_error_handler` from `register_clean_handlers`
(`handlers/core_clean_actions.py`): logs every unhandled error with the
acting user's id (default `"unknown"`), suppresses the user-facing message if
the lowercased error text contains any benign code, else posts the generic
apology. -/
def global_error_handler (user_id_in_body : Option String)
    (error_msg : String) : ErrorHandlerResult :=
  let user_id := user_id_in_body.getD "unknown"
  let logged := "Unhandled error for user " ++ user_id ++ ": " ++ error_msg
  if benign_error_fragments.any (fun x => py_in x (py_lower error_msg)) then
    { logged_user_id := user_id, logged_message := logged, message_sent := none }
  else
    { logged_user_id := user_id, logged_message := logged,
      message_sent := some apology_message }

/-- C9: every unhandled exception is logged with the acting user's
identifier; the user-facing message is suppressed exactly when the error text
(lowercased) contains one of the benign platform error codes
(`expired_trigger_id`, `invalid_auth`, `push_limit_reached`), and otherwise
the generic apology message is posted — nothing else is ever sent. -/
theorem c9_error_handler_suppression (user_id_in_body : Option String)
    (error_msg : String) :
    (global_error_handler user_id_in_body error_msg).logged_user_id =
      user_id_in_body.getD "unknown"
    ∧ (global_error_handler user_id_in_body error_msg).logged_message =
      "Unhandled error for user " ++ user_id_in_body.getD "unknown" ++ ": " ++
        error_msg
    ∧ ((global_error_handler user_id_in_body error_msg).message_sent = none ↔
      (py_in "expired_trigger_id" (py_lower error_msg) = true ∨
        py_in "invalid_auth" (py_lower error_msg) = true ∨
        py_in "push_limit_reached" (py_lower error_msg) = true))
    ∧ ((global_error_handler user_id_in_body error_msg).message_sent = none ∨
      (global_error_handler user_id_in_body error_msg).message_sent =
        some apology_message) := by
  unfold global_error_handler benign_error_fragments
  by_cases hb : (["expired_trigger_id", "invalid_auth",
      "push_limit_reached"].any (fun x => py_in x (py_lower error_msg))) = true
  · have hb' := hb
    simp only [List.any_cons, List.any_nil, Bool.or_eq_true,
      Bool.or_false] at hb'
    simp [hb, hb']
  · have hb' := hb
    simp only [List.any_cons, List.any_nil, Bool.or_eq_true,
      Bool.or_false] at hb'
    simp [hb, hb']
